import Mathlib

/-!
Verification of the authoritative game-simulation core of the
Defense-Zone-Driver repository (`src/server/src/GameRoom.ts`), against its
natural-language specification.

The TypeScript class `GameRoom` is embedded shallowly:

* JS `Map<string, T>` (insertion-ordered, key-unique) becomes an
  insertion-ordered association list `AssocMap T`; `Map.set` overwrites in
  place or appends, `Map.delete` removes every entry with the key (on the
  key-unique lists produced by the code the two coincide), iteration is the
  list order.
* JS `Set<string>` becomes an insertion-ordered duplicate-free `List String`
  (`setAdd` is a no-op on a present element).
* JS numbers (IEEE doubles in the source) are modelled as exact rationals
  `ℚ`; millisecond wall-clock timestamps (`Date.now()`) as `ℕ`, passed in as
  an explicit `now` argument; `Math.random()` outcomes are passed in as
  explicit arguments (`rx ry : ℚ` in `[0,1)`, a spawn-point index).
* Every comparison the source makes between `Math.sqrt` values and a
  non-negative threshold (`dist < r`, `dist <= r`) is embedded as the
  equivalent comparison of squares (`dist² < r²`, `dist² ≤ r²`): `Real.sqrt`
  is strictly monotone on non-negatives, so the two are the same predicate.
  The only places the numeric *value* of a square root is used (velocity
  normalisation and the direction vectors of enemy/projectile motion) go
  through `sqrtQ` below.
-/

namespace DefenseZone

/-- Stand-in for `Math.sqrt` at the three places where the source uses the
numeric value of a square root (not merely a comparison): it is exact on
rationals whose numerator and denominator are perfect squares, which covers
every concrete evaluation below; no theorem in this file depends on its
value elsewhere. -/
def sqrtQ (q : ℚ) : ℚ := Rat.sqrt q

/-- Insertion-ordered association list modelling a JS `Map<string, α>`. -/
abbrev AssocMap (α : Type) := List (String × α)

/-- `Map.prototype.get`. -/
def mapGet {α : Type} (m : AssocMap α) (k : String) : Option α :=
  match m.find? (fun p => p.1 == k) with
  | some p => some p.2
  | none => none

/-- `Map.prototype.set`: overwrite in place if the key is present, else
append at the end (JS insertion-order semantics). -/
def mapSet {α : Type} (m : AssocMap α) (k : String) (v : α) : AssocMap α :=
  if m.any (fun p => p.1 == k) then
    m.map (fun p => if p.1 == k then (k, v) else p)
  else
    m ++ [(k, v)]

/-- `Map.prototype.delete` (by key). -/
def mapDelete {α : Type} (m : AssocMap α) (k : String) : AssocMap α :=
  m.filter (fun p => ¬ p.1 = k)

/-- `Set.prototype.add` on an insertion-ordered set of strings. -/
def setAdd (s : List String) (k : String) : List String :=
  if k ∈ s then s else s ++ [k]

/-- `Set.prototype.delete`. -/
def setDelete (s : List String) (k : String) : List String :=
  s.filter (fun x => ¬ x = k)

/-- Squared Euclidean distance between `(x1, y1)` and `(x2, y2)`; the source
computes `Math.sqrt` of this value. -/
def dist2 (x1 y1 x2 y2 : ℚ) : ℚ :=
  (x1 - x2) * (x1 - x2) + (y1 - y2) * (y1 - y2)

/-! ## Entity records (shared/src/types.ts, mirrored in gesture-input.js) -/

structure PlayerInput where
  left : Bool
  right : Bool
  up : Bool
  down : Bool
  deriving DecidableEq, Repr

structure Player where
  id : String
  username : String
  x : ℚ
  y : ℚ
  color : String
  speed : ℚ
  deriving DecidableEq, Repr

structure Enemy where
  id : String
  x : ℚ
  y : ℚ
  hp : ℚ
  maxHp : ℚ
  speed : ℚ
  deriving DecidableEq, Repr

structure Building where
  id : String
  x : ℚ
  y : ℚ
  type : String
  hp : ℚ
  maxHp : ℚ
  ownerId : String
  deriving DecidableEq, Repr

structure Projectile where
  id : String
  x : ℚ
  y : ℚ
  targetX : ℚ
  targetY : ℚ
  speed : ℚ
  sourceId : String
  deriving DecidableEq, Repr

structure CentralBuilding where
  x : ℚ
  y : ℚ
  hp : ℚ
  maxHp : ℚ
  size : ℚ
  deriving DecidableEq, Repr

inductive GamePhase where
  | WAITING
  | RUNNING
  deriving DecidableEq, Repr

/-! ## GAME_CONFIG (shared constants) -/

namespace GAME_CONFIG

def WORLD_WIDTH : ℚ := 800
def WORLD_HEIGHT : ℚ := 600
def PLAYER_SIZE : ℚ := 16
def PLAYER_SPEED : ℚ := 200

def COLORS : List String :=
  ["#FF6B6B", "#4ECDC4", "#45B7D1", "#FFA07A",
   "#98D8C8", "#F7DC6F", "#BB8FCE", "#85C1E2"]

def ENEMY_SPEED : ℚ := 50
def ENEMY_HP : ℚ := 200
def ENEMY_SIZE : ℚ := 12
def ENEMY_SPAWN_INTERVAL : ℕ := 2000
def ENEMY_DAMAGE : ℚ := 20
def ENEMY_ATTACK_RANGE : ℚ := 20
def ENEMY_ATTACK_COOLDOWN : ℕ := 1000

def CENTRAL_BUILDING_SIZE : ℚ := 64
def CENTRAL_BUILDING_HP : ℚ := 1000

def BUILDING_SIZE : ℚ := 32
def BUILDING_HP : ℚ := 200
def BUILDING_DAMAGE : ℚ := 15
def BUILDING_ATTACK_RANGE : ℚ := 150
def BUILDING_ATTACK_COOLDOWN : ℕ := 500
def PROJECTILE_SPEED : ℚ := 300

def SPAWN_POSITIONS : List (ℚ × ℚ) :=
  [(50, 50), (750, 50), (50, 550), (750, 550)]

end GAME_CONFIG

/-! ## GameRoom state -/

structure GameRoom where
  players : AssocMap Player
  playerInputs : AssocMap PlayerInput
  enemies : AssocMap Enemy
  buildings : AssocMap Building
  projectiles : AssocMap Projectile
  centralBuilding : CentralBuilding
  matchPhase : GamePhase
  readyPlayers : List String
  lastEnemySpawn : ℕ
  enemyIdCounter : ℕ
  buildingIdCounter : ℕ
  projectileIdCounter : ℕ
  enemyAttackCooldowns : AssocMap ℕ
  buildingAttackCooldowns : AssocMap ℕ
  deriving DecidableEq, Repr

/-- `createCentralBuilding` (GameRoom.ts lines 36-44). -/
def createCentralBuilding : CentralBuilding :=
  { x := GAME_CONFIG.WORLD_WIDTH / 2
    y := GAME_CONFIG.WORLD_HEIGHT / 2
    hp := GAME_CONFIG.CENTRAL_BUILDING_HP
    maxHp := GAME_CONFIG.CENTRAL_BUILDING_HP
    size := GAME_CONFIG.CENTRAL_BUILDING_SIZE }

/-- The `GameRoom` constructor (lines 13-34); `now` is the `Date.now()`
read for the `lastEnemySpawn` field initialiser. -/
def initialRoom (now : ℕ) : GameRoom :=
  { players := []
    playerInputs := []
    enemies := []
    buildings := []
    projectiles := []
    centralBuilding := createCentralBuilding
    matchPhase := GamePhase.WAITING
    readyPlayers := []
    lastEnemySpawn := now
    enemyIdCounter := 0
    buildingIdCounter := 0
    projectileIdCounter := 0
    enemyAttackCooldowns := []
    buildingAttackCooldowns := [] }

/-- `addPlayer` (lines 46-72); `rx`, `ry` are the two `Math.random()`
outcomes, each in `[0,1)`. -/
def addPlayer (s : GameRoom) (id username : String) (rx ry : ℚ) :
    Player × GameRoom :=
  let colorIndex := s.players.length % GAME_CONFIG.COLORS.length
  let margin : ℚ := 80
  let x := margin + rx * (GAME_CONFIG.WORLD_WIDTH - margin * 2)
  let y := margin + ry * (GAME_CONFIG.WORLD_HEIGHT - margin * 2)
  let player : Player :=
    { id := id
      username := username
      x := x
      y := y
      color := GAME_CONFIG.COLORS.get
        ⟨colorIndex, Nat.mod_lt _ (by norm_num [GAME_CONFIG.COLORS])⟩
      speed := GAME_CONFIG.PLAYER_SPEED }
  (player,
   { s with
      players := mapSet s.players id player
      playerInputs := mapSet s.playerInputs id
        { left := false, right := false, up := false, down := false } })

/-- `removePlayer` (lines 74-78). -/
def removePlayer (s : GameRoom) (id : String) : GameRoom :=
  { s with
     players := mapDelete s.players id
     playerInputs := mapDelete s.playerInputs id
     readyPlayers := setDelete s.readyPlayers id }

/-- `updatePlayerInput` (lines 80-82): stores the input unconditionally. -/
def updatePlayerInput (s : GameRoom) (id : String) (input : PlayerInput) :
    GameRoom :=
  { s with playerInputs := mapSet s.playerInputs id input }

/-- `getPlayer` (lines 84-86). -/
def getPlayer (s : GameRoom) (id : String) : Option Player :=
  mapGet s.players id

/-- The adjacency count computed inside `placeBuilding` (lines 112-125):
existing buildings within one `BUILDING_SIZE` grid square of `(x, y)` in
both axes, the identical position excluded. -/
def adjacentCount (buildings : AssocMap Building) (x y : ℚ) : ℕ :=
  buildings.countP (fun p =>
    let dx := |p.2.x - x|
    let dy := |p.2.y - y|
    decide (dx ≤ GAME_CONFIG.BUILDING_SIZE ∧ dy ≤ GAME_CONFIG.BUILDING_SIZE ∧
      ¬(dx = 0 ∧ dy = 0)))

/-- `placeBuilding` (lines 92-145).  The source compares
`Math.sqrt(distanceFromCenter²) < minDistanceFromCenter`; both sides are
non-negative, so this is embedded as the comparison of squares. -/
def placeBuilding (s : GameRoom) (x y : ℚ) (btype ownerId : String) :
    Option Building × GameRoom :=
  if s.matchPhase ≠ GamePhase.RUNNING then (none, s)
  else
    let centralHalfSize := s.centralBuilding.size / 2
    let buildingHalfSize := GAME_CONFIG.BUILDING_SIZE / 2
    let minDistanceFromCenter := centralHalfSize + buildingHalfSize
    let d2FromCenter := dist2 x y s.centralBuilding.x s.centralBuilding.y
    if d2FromCenter < minDistanceFromCenter * minDistanceFromCenter then
      (none, s)
    else if adjacentCount s.buildings x y > 2 then (none, s)
    else
      let building : Building :=
        { id := "building_" ++ toString s.buildingIdCounter
          x := x
          y := y
          type := btype
          hp := GAME_CONFIG.BUILDING_HP
          maxHp := GAME_CONFIG.BUILDING_HP
          ownerId := ownerId }
      (some building,
       { s with
          buildings := mapSet s.buildings building.id building
          buildingIdCounter := s.buildingIdCounter + 1 })

/-- `resetMatch` (lines 163-180); `now` is the `Date.now()` read for the
spawn-timer baseline. -/
def resetMatch (s : GameRoom) (now : ℕ) : GameRoom :=
  { s with
     enemies := []
     buildings := []
     projectiles := []
     enemyAttackCooldowns := []
     buildingAttackCooldowns := []
     centralBuilding := createCentralBuilding
     readyPlayers := []
     matchPhase := GamePhase.RUNNING
     lastEnemySpawn := now }

/-- `playerReady` (lines 147-161).  Note the source checks *size* equality
of the ready set against the player map and never checks that `playerId`
names a connected player. -/
def playerReady (s : GameRoom) (playerId : String) (now : ℕ) :
    Bool × GameRoom :=
  if s.matchPhase ≠ GamePhase.WAITING then (false, s)
  else if (setAdd s.readyPlayers playerId).length = s.players.length ∧
      0 < s.players.length then
    (true, resetMatch { s with readyPlayers := setAdd s.readyPlayers playerId } now)
  else (false, { s with readyPlayers := setAdd s.readyPlayers playerId })

/-- The `Record<string, T>` copy loops of `getGameState` (lines 183-201):
each `forEach` re-inserts every entry in iteration order. -/
def recordOf {α : Type} (m : AssocMap α) : AssocMap α :=
  m.foldl (fun acc kv => acc ++ [kv]) []

/-- The snapshot type `GameState` (shared types). -/
structure GameState where
  players : AssocMap Player
  enemies : AssocMap Enemy
  buildings : AssocMap Building
  projectiles : AssocMap Projectile
  centralBuilding : CentralBuilding
  matchPhase : GamePhase
  readyPlayers : List String
  timestamp : ℕ
  deriving DecidableEq, Repr

/-- `getGameState` (lines 182-213); `now` is the `Date.now()` timestamp.
The method performs no assignment to any field of the room, so the room
component of the result is the input state itself. -/
def getGameState (s : GameRoom) (now : ℕ) : GameState × GameRoom :=
  ({ players := recordOf s.players
     enemies := recordOf s.enemies
     buildings := recordOf s.buildings
     projectiles := recordOf s.projectiles
     centralBuilding := s.centralBuilding
     matchPhase := s.matchPhase
     readyPlayers := s.readyPlayers
     timestamp := now }, s)

/-- `getPlayerCount` (lines 468-470). -/
def getPlayerCount (s : GameRoom) : ℕ := s.players.length

/-- `getMatchPhase` (lines 472-474). -/
def getMatchPhase (s : GameRoom) : GamePhase := s.matchPhase

/-! ## Simulation passes -/

/-- The per-player body of `updatePlayers` (lines 234-256) when an input is
stored: sum the directional flags, normalise a diagonal, move, then clamp
both axes to `[PLAYER_SIZE/2, dimension - PLAYER_SIZE/2]`. -/
def movePlayer (p : Player) (input : PlayerInput) (dt : ℚ) : Player :=
  let vx0 : ℚ := (if input.left then -1 else 0) + (if input.right then 1 else 0)
  let vy0 : ℚ := (if input.up then -1 else 0) + (if input.down then 1 else 0)
  let v : ℚ × ℚ :=
    if vx0 ≠ 0 ∧ vy0 ≠ 0 then
      let length := sqrtQ (vx0 * vx0 + vy0 * vy0)
      (vx0 / length, vy0 / length)
    else (vx0, vy0)
  let halfSize := GAME_CONFIG.PLAYER_SIZE / 2
  let x1 := p.x + v.1 * p.speed * dt
  let y1 := p.y + v.2 * p.speed * dt
  { p with
     x := max halfSize (min (GAME_CONFIG.WORLD_WIDTH - halfSize) x1)
     y := max halfSize (min (GAME_CONFIG.WORLD_HEIGHT - halfSize) y1) }

/-- `updatePlayers` (lines 229-258): a player with no stored input is left
untouched (`if (!input) return`). -/
def updatePlayers (s : GameRoom) (dt : ℚ) : GameRoom :=
  { s with
     players := s.players.map (fun p =>
       match mapGet s.playerInputs p.1 with
       | none => p
       | some input => (p.1, movePlayer p.2 input dt)) }

/-- `spawnEnemies` (lines 260-279); `idx` is the random spawn-point choice
`Math.floor(Math.random() * SPAWN_POSITIONS.length)`.  The source condition
`now - lastEnemySpawn >= interval` is written addition-side to match `ℕ`. -/
def spawnEnemies (s : GameRoom) (now : ℕ)
    (idx : Fin GAME_CONFIG.SPAWN_POSITIONS.length) : GameRoom :=
  if s.lastEnemySpawn + GAME_CONFIG.ENEMY_SPAWN_INTERVAL ≤ now then
    let spawnPos := GAME_CONFIG.SPAWN_POSITIONS.get idx
    let enemy : Enemy :=
      { id := "enemy_" ++ toString s.enemyIdCounter
        x := spawnPos.1
        y := spawnPos.2
        hp := GAME_CONFIG.ENEMY_HP
        maxHp := GAME_CONFIG.ENEMY_HP
        speed := GAME_CONFIG.ENEMY_SPEED }
    { s with
       enemies := mapSet s.enemies enemy.id enemy
       enemyIdCounter := s.enemyIdCounter + 1
       lastEnemySpawn := now }
  else s

/-- The `closestTarget` record of `updateEnemies` (line 288). -/
structure Target where
  x : ℚ
  y : ℚ
  size : ℚ
  id : String
  isCentral : Bool
  deriving DecidableEq, Repr

/-- The candidate record built from a building entry (lines 314-320). -/
def buildingTargetOf (p : String × Building) : Target :=
  { x := p.2.x, y := p.2.y, size := GAME_CONFIG.BUILDING_SIZE,
    id := p.1, isCentral := false }

/-- The candidate record built from the central building (lines 297-303). -/
def centralTargetOf (cb : CentralBuilding) : Target :=
  { x := cb.x, y := cb.y, size := cb.size, id := "central",
    isCentral := true }

/-- One step of the `buildings.forEach` target scan (lines 308-323): switch
to the building only when *strictly* closer than the current candidate
(`distance < closestDistance`); the second component carries the squared
`closestDistance`. -/
def targetScanStep (ex ey : ℚ) (acc : Option (Target × ℚ))
    (p : String × Building) : Option (Target × ℚ) :=
  let d := dist2 p.2.x p.2.y ex ey
  match acc with
  | none => some (buildingTargetOf p, d)
  | some (t, cd) =>
      if d < cd then some (buildingTargetOf p, d) else some (t, cd)

/-- Target selection of `updateEnemies` (lines 286-323): the central
building is the starting candidate when its HP is positive (`closestDistance`
starts at `Infinity`, embedded as `none`), then every live building is
scanned in map order. -/
def selectTarget (cb : CentralBuilding) (buildings : AssocMap Building)
    (ex ey : ℚ) : Option (Target × ℚ) :=
  let start : Option (Target × ℚ) :=
    if 0 < cb.hp then some (centralTargetOf cb, dist2 cb.x cb.y ex ey)
    else none
  buildings.foldl (targetScanStep ex ey) start

/-- Mutable state threaded through the `enemies.forEach` of `updateEnemies`
(lines 281-369): the central building, the live building map and the
cooldown map are read and written inside the loop; removals are queued. -/
structure EnemyPassState where
  central : CentralBuilding
  buildings : AssocMap Building
  cooldowns : AssocMap ℕ
  done : AssocMap Enemy
  enemiesToRemove : List String
  buildingsToRemove : List String
  deriving DecidableEq, Repr

/-- The central-building damage statement (lines 339-342): subtract
`ENEMY_DAMAGE`, clamping at zero. -/
def attackCentral (cb : CentralBuilding) : CentralBuilding :=
  let hp1 := cb.hp - GAME_CONFIG.ENEMY_DAMAGE
  { cb with hp := if hp1 < 0 then 0 else hp1 }

/-- The attack block of `updateEnemies` (lines 334-354), entered when the
chosen target is within range: gated by the per-enemy cooldown
(`now - lastAttack >= ENEMY_ATTACK_COOLDOWN`, default last-attack `0`), then
either the central building or the looked-up player building is damaged and
the cooldown is stamped to `now`. -/
def applyAttack (st : EnemyPassState) (eid : String) (t : Target)
    (now : ℕ) : EnemyPassState :=
  let lastAttack := (mapGet st.cooldowns eid).getD 0
  if lastAttack + GAME_CONFIG.ENEMY_ATTACK_COOLDOWN ≤ now then
    let st1 :=
      if t.isCentral then { st with central := attackCentral st.central }
      else
        match mapGet st.buildings t.id with
        | some building =>
            let b1 := { building with
                         hp := building.hp - GAME_CONFIG.ENEMY_DAMAGE }
            let stb := { st with buildings := mapSet st.buildings t.id b1 }
            if b1.hp ≤ 0 then
              { stb with
                 buildingsToRemove := stb.buildingsToRemove ++ [t.id] }
            else stb
        | none => st
    { st1 with cooldowns := mapSet st1.cooldowns eid now }
  else st

/-- The movement branch of `updateEnemies` (lines 355-362): straight-line
pursuit `position += (delta / distance) * speed * dt`. -/
def moveEnemy (enemy : Enemy) (t : Target) (d2t : ℚ) (dt : ℚ) : Enemy :=
  let distance := sqrtQ d2t
  { enemy with
     x := enemy.x + (t.x - enemy.x) / distance * enemy.speed * dt
     y := enemy.y + (t.y - enemy.y) / distance * enemy.speed * dt }

/-- The body of the `enemies.forEach` of `updateEnemies` (lines 286-368):
select a target; attack it when within `ENEMY_ATTACK_RANGE + size/2`
(distance comparison embedded on squares), otherwise move toward it; then
queue the enemy for removal when its HP is ≤ 0 (its HP is never changed by
this pass). -/
def enemyBehavior (dt : ℚ) (now : ℕ) (st : EnemyPassState)
    (p : String × Enemy) : EnemyPassState :=
  let eid := p.1
  let enemy := p.2
  let step : EnemyPassState × Enemy :=
    match selectTarget st.central st.buildings enemy.x enemy.y with
    | none => (st, enemy)
    | some (t, d2t) =>
        let attackRange := GAME_CONFIG.ENEMY_ATTACK_RANGE + t.size / 2
        if d2t ≤ attackRange * attackRange then
          (applyAttack st eid t now, enemy)
        else (st, moveEnemy enemy t d2t dt)
  let st2 := { step.1 with done := step.1.done ++ [(eid, step.2)] }
  if step.2.hp ≤ 0 then
    { st2 with enemiesToRemove := st2.enemiesToRemove ++ [eid] }
  else st2

/-- `updateEnemies` (lines 281-381): run the per-enemy pass over the enemy
map in order, then delete the queued buildings and the queued dead enemies
(together with the latter's cooldown entries). -/
def updateEnemies (s : GameRoom) (dt : ℚ) (now : ℕ) : GameRoom :=
  let st0 : EnemyPassState :=
    { central := s.centralBuilding
      buildings := s.buildings
      cooldowns := s.enemyAttackCooldowns
      done := []
      enemiesToRemove := []
      buildingsToRemove := [] }
  let st := s.enemies.foldl (enemyBehavior dt now) st0
  { s with
     enemies := st.done.filter (fun p => ¬ p.1 ∈ st.enemiesToRemove)
     buildings := st.buildings.filter
       (fun p => ¬ p.1 ∈ st.buildingsToRemove)
     centralBuilding := st.central
     enemyAttackCooldowns := st.cooldowns.filter
       (fun p => ¬ p.1 ∈ st.enemiesToRemove) }

/-- Mutable state threaded through `updateBuildingAttacks`
(lines 383-421). -/
structure BuildingPassState where
  projectiles : AssocMap Projectile
  cooldowns : AssocMap ℕ
  counter : ℕ
  deriving DecidableEq, Repr

/-- The closest-enemy scan of `updateBuildingAttacks` (lines 388-400):
an enemy qualifies only within `BUILDING_ATTACK_RANGE` and when strictly
closer than the current candidate (both comparisons embedded on squares). -/
def closestEnemyTo (enemies : AssocMap Enemy) (bx byy : ℚ) :
    Option (Enemy × ℚ) :=
  enemies.foldl (fun acc p =>
    let d := dist2 p.2.x p.2.y bx byy
    if d ≤ GAME_CONFIG.BUILDING_ATTACK_RANGE * GAME_CONFIG.BUILDING_ATTACK_RANGE ∧
        (match acc with | none => true | some q => decide (d < q.2)) = true then
      some (p.2, d)
    else acc) none

/-- The body of the `buildings.forEach` of `updateBuildingAttacks`
(lines 386-420): when an enemy is in range and the per-building cooldown
(default `0`) has elapsed, spawn a projectile aimed at the enemy's current
position and stamp the cooldown. -/
def buildingAttack (now : ℕ) (enemies : AssocMap Enemy)
    (st : BuildingPassState) (p : String × Building) : BuildingPassState :=
  match closestEnemyTo enemies p.2.x p.2.y with
  | none => st
  | some (enemy, _) =>
      let lastAttack := (mapGet st.cooldowns p.1).getD 0
      if lastAttack + GAME_CONFIG.BUILDING_ATTACK_COOLDOWN ≤ now then
        let projectile : Projectile :=
          { id := "projectile_" ++ toString st.counter
            x := p.2.x
            y := p.2.y
            targetX := enemy.x
            targetY := enemy.y
            speed := GAME_CONFIG.PROJECTILE_SPEED
            sourceId := p.1 }
        { projectiles := mapSet st.projectiles projectile.id projectile
          cooldowns := mapSet st.cooldowns p.1 now
          counter := st.counter + 1 }
      else st

/-- `updateBuildingAttacks` (lines 383-421); the unused `deltaTime`
parameter of the source is kept. -/
def updateBuildingAttacks (s : GameRoom) (dt : ℚ) (now : ℕ) : GameRoom :=
  let _ := dt
  let st := s.buildings.foldl (buildingAttack now s.enemies)
    { projectiles := s.projectiles
      cooldowns := s.buildingAttackCooldowns
      counter := s.projectileIdCounter }
  { s with
     projectiles := st.projectiles
     buildingAttackCooldowns := st.cooldowns
     projectileIdCounter := st.counter }

/-- Mutable state threaded through `updateProjectiles` (lines 423-459):
enemy HP is written inside the loop. -/
structure ProjectilePassState where
  enemies : AssocMap Enemy
  done : AssocMap Projectile
  toRemove : List String
  deriving DecidableEq, Repr

/-- The body of the `projectiles.forEach` of `updateProjectiles`
(lines 426-453): within distance 5 of the fixed target point the projectile
resolves its impact — every enemy within `ENEMY_SIZE` of the projectile's
position takes `BUILDING_DAMAGE` — and is queued for removal; otherwise it
moves toward the target point. -/
def projectileStep (dt : ℚ) (st : ProjectilePassState)
    (p : String × Projectile) : ProjectilePassState :=
  let pr := p.2
  let d2t := dist2 pr.targetX pr.targetY pr.x pr.y
  if d2t < 5 * 5 then
    { st with
       enemies := st.enemies.map (fun q =>
         if dist2 q.2.x q.2.y pr.x pr.y <
             GAME_CONFIG.ENEMY_SIZE * GAME_CONFIG.ENEMY_SIZE then
           (q.1, { q.2 with hp := q.2.hp - GAME_CONFIG.BUILDING_DAMAGE })
         else q)
       done := st.done ++ [(p.1, pr)]
       toRemove := st.toRemove ++ [p.1] }
  else
    let distance := sqrtQ d2t
    let pr1 := { pr with
                  x := pr.x + (pr.targetX - pr.x) / distance * pr.speed * dt
                  y := pr.y + (pr.targetY - pr.y) / distance * pr.speed * dt }
    { st with done := st.done ++ [(p.1, pr1)] }

/-- `updateProjectiles` (lines 423-459). -/
def updateProjectiles (s : GameRoom) (dt : ℚ) : GameRoom :=
  let st := s.projectiles.foldl (projectileStep dt)
    { enemies := s.enemies, done := [], toRemove := [] }
  { s with
     enemies := st.enemies
     projectiles := st.done.filter (fun p => ¬ p.1 ∈ st.toRemove) }

/-- `checkCentralBuildingDestroyed` (lines 461-466): the only
RUNNING→WAITING transition; it sets the phase and clears the ready set and
nothing else. -/
def checkCentralBuildingDestroyed (s : GameRoom) : GameRoom :=
  if s.centralBuilding.hp ≤ 0 then
    { s with matchPhase := GamePhase.WAITING, readyPlayers := [] }
  else s

/-- `update` (lines 215-227): movement always runs; the game-logic passes
run only during RUNNING, in source order. -/
def update (s : GameRoom) (dt : ℚ) (now : ℕ)
    (idx : Fin GAME_CONFIG.SPAWN_POSITIONS.length) : GameRoom :=
  let s1 := updatePlayers s dt
  if s1.matchPhase = GamePhase.RUNNING then
    checkCentralBuildingDestroyed
      (updateProjectiles
        (updateBuildingAttacks
          (updateEnemies (spawnEnemies s1 now idx) dt now) dt now) dt)
  else s1

/-! ## Container lemmas -/

theorem foldl_append_eq {α : Type} (m acc : List α) :
    m.foldl (fun a kv => a ++ [kv]) acc = acc ++ m := by
  induction m generalizing acc with
  | nil => simp
  | cons p tl ih => simp [ih]

theorem recordOf_eq {α : Type} (m : AssocMap α) : recordOf m = m := by
  simp [recordOf, foldl_append_eq]

theorem setAdd_mem (s : List String) (k : String) : k ∈ setAdd s k := by
  unfold setAdd
  split
  · assumption
  · simp

theorem find?_map_replace {α : Type} (k : String) (v : α) :
    ∀ m : AssocMap α, m.any (fun p => p.1 == k) = true →
      (m.map (fun p => if p.1 == k then (k, v) else p)).find?
          (fun p => p.1 == k) = some (k, v) := by
  intro m
  induction m with
  | nil => intro h; simp at h
  | cons q tl ih =>
      intro h
      by_cases hq : (q.1 == k) = true
      · simp only [List.map_cons, if_pos hq]
        exact List.find?_cons_of_pos _ (by simp)
      · simp only [List.map_cons, if_neg hq]
        rw [List.find?_cons_of_neg _ (by simpa using hq)]
        apply ih
        simpa [hq] using h

theorem mapGet_mapSet_self {α : Type} (m : AssocMap α) (k : String) (v : α) :
    mapGet (mapSet m k v) k = some v := by
  unfold mapGet mapSet
  by_cases h : m.any (fun p => p.1 == k) = true
  · rw [if_pos h, find?_map_replace k v m h]
  · rw [if_neg h]
    have hn : m.find? (fun p => p.1 == k) = none :=
      List.find?_eq_none.mpr (by
        intro x hx hpx
        exact h (List.any_eq_true.mpr ⟨x, hx, hpx⟩))
    rw [List.find?_append, hn]
    simp

/-- Spawn-point index 0, used by the concrete scenarios below. -/
def spawnIdx0 : Fin GAME_CONFIG.SPAWN_POSITIONS.length :=
  ⟨0, by norm_num [GAME_CONFIG.SPAWN_POSITIONS]⟩

/-! ## C9: the snapshot exporter is read-only -/

/-- C9: `getGameState` never mutates the world — it returns the room
unchanged, and every component of the returned snapshot equals the
corresponding container (the ready set as a list, the timestamp being the
`Date.now()` of the call). -/
theorem c9_getGameState_readonly (s : GameRoom) (now : ℕ) :
    getGameState s now =
      ({ players := s.players
         enemies := s.enemies
         buildings := s.buildings
         projectiles := s.projectiles
         centralBuilding := s.centralBuilding
         matchPhase := s.matchPhase
         readyPlayers := s.readyPlayers
         timestamp := now }, s) := by
  simp [getGameState, recordOf_eq]

/-! ## C10: color assignment can repeat among connected players -/

/-- The all-false input record stored by `addPlayer`. -/
def noInput : PlayerInput :=
  { left := false, right := false, up := false, down := false }

/-- The connect/disconnect trace of the claim: add players `a`, `b`, remove
`a`, add `c` (random spawn coordinates taken as `0`). -/
def c10room : GameRoom :=
  (addPlayer
    (removePlayer
      (addPlayer (addPlayer (initialRoom 0) "a" "A" 0 0).2 "b" "B" 0 0).2
      "a")
    "c" "C" 0 0).2

def c10pA : Player :=
  { id := "a", username := "A", x := 80, y := 80, color := "#FF6B6B",
    speed := 200 }

def c10pB : Player :=
  { id := "b", username := "B", x := 80, y := 80, color := "#4ECDC4",
    speed := 200 }

def c10pC : Player :=
  { id := "c", username := "C", x := 80, y := 80, color := "#4ECDC4",
    speed := 200 }

def c10r4 : GameRoom :=
  { initialRoom 0 with
     players := [("b", c10pB), ("c", c10pC)]
     playerInputs := [("b", noInput), ("c", noInput)] }

theorem c10room_eq : c10room = c10r4 := by
  have h1 : (addPlayer (initialRoom 0) "a" "A" 0 0).2 =
      { initialRoom 0 with
         players := [("a", c10pA)]
         playerInputs := [("a", noInput)] } := by
    simp [addPlayer, initialRoom, mapSet, noInput, c10pA,
      GAME_CONFIG.COLORS, GAME_CONFIG.WORLD_WIDTH, GAME_CONFIG.WORLD_HEIGHT,
      GAME_CONFIG.PLAYER_SPEED]
  have h2 : (addPlayer
      { initialRoom 0 with
         players := [("a", c10pA)]
         playerInputs := [("a", noInput)] } "b" "B" 0 0).2 =
      { initialRoom 0 with
         players := [("a", c10pA), ("b", c10pB)]
         playerInputs := [("a", noInput), ("b", noInput)] } := by
    simp [addPlayer, initialRoom, mapSet, noInput, c10pA, c10pB,
      GAME_CONFIG.COLORS, GAME_CONFIG.WORLD_WIDTH, GAME_CONFIG.WORLD_HEIGHT,
      GAME_CONFIG.PLAYER_SPEED]
  have h3 : removePlayer
      { initialRoom 0 with
         players := [("a", c10pA), ("b", c10pB)]
         playerInputs := [("a", noInput), ("b", noInput)] } "a" =
      { initialRoom 0 with
         players := [("b", c10pB)]
         playerInputs := [("b", noInput)] } := by
    simp [removePlayer, initialRoom, mapDelete, setDelete, c10pA, c10pB,
      noInput]
  have h4 : (addPlayer
      { initialRoom 0 with
         players := [("b", c10pB)]
         playerInputs := [("b", noInput)] } "c" "C" 0 0).2 = c10r4 := by
    simp [addPlayer, initialRoom, mapSet, noInput, c10pB, c10pC, c10r4,
      GAME_CONFIG.COLORS, GAME_CONFIG.WORLD_WIDTH, GAME_CONFIG.WORLD_HEIGHT,
      GAME_CONFIG.PLAYER_SPEED]
  rw [c10room, h1, h2, h3, h4]

/-- C10: `addPlayer` picks the color purely as current player count modulo
the palette length, and on the trace add `a`, add `b`, remove `a`, add `c`
the two simultaneously connected players `b` and `c` both get palette color
`#4ECDC4` even though only 2 of the 8 palette entries are in use. -/
theorem c10_color_reuse :
    (∀ (s : GameRoom) (id username : String) (rx ry : ℚ),
        (addPlayer s id username rx ry).1.color =
          GAME_CONFIG.COLORS.getD
            (s.players.length % GAME_CONFIG.COLORS.length) "") ∧
    (mapGet c10room.players "b").map Player.color = some "#4ECDC4" ∧
    (mapGet c10room.players "c").map Player.color = some "#4ECDC4" ∧
    ¬ "b" = "c" ∧
    c10room.players.length = 2 ∧
    c10room.players.length < GAME_CONFIG.COLORS.length := by
  refine ⟨?_, ?_⟩
  · intro s id username rx ry
    have hlt : s.players.length % GAME_CONFIG.COLORS.length <
        GAME_CONFIG.COLORS.length :=
      Nat.mod_lt _ (by norm_num [GAME_CONFIG.COLORS])
    rw [List.getD_eq_getElem _ _ hlt]
    simp [addPlayer]
  · rw [c10room_eq]
    simp [c10r4, c10pB, c10pC, initialRoom, mapGet, GAME_CONFIG.COLORS]

/-! ## C5: commands with nonexistent player ids -/

/-- C5 counterexample: with no players connected, `updatePlayerInput` for
the unknown id `ghost` adds an entry to the stored-input map, and
`playerReady` for `ghost` during WAITING adds `ghost` to the ready set —
the world state is not left unchanged. -/
theorem c5_counterexample :
    mapGet (initialRoom 0).players "ghost" = none ∧
    (updatePlayerInput (initialRoom 0) "ghost"
        { left := true, right := false, up := false, down := false
            }).playerInputs =
      [("ghost", { left := true, right := false, up := false, down := false })] ∧
    (playerReady (initialRoom 0) "ghost" 5).2.readyPlayers = ["ghost"] := by
  simp [initialRoom, updatePlayerInput, playerReady, resetMatch,
    mapGet, mapSet, setAdd]

/-- C5 (amended): commands referencing a nonexistent player id never fault,
but they are not pure no-ops: `updatePlayerInput` stores the input under the
given id unconditionally (players untouched), and `playerReady` during
WAITING runs identically for any id — it leaves the players untouched and,
when the all-ready size test does not fire, the resulting state is exactly
the old one with the id added to the ready set. -/
theorem c5_amended (s : GameRoom) (id : String) (input : PlayerInput)
    (now : ℕ) :
    (updatePlayerInput s id input).players = s.players ∧
    mapGet (updatePlayerInput s id input).playerInputs id = some input ∧
    (s.matchPhase = GamePhase.WAITING →
      (playerReady s id now).2.players = s.players ∧
      ((setAdd s.readyPlayers id).length ≠ s.players.length →
        playerReady s id now =
          (false, { s with readyPlayers := setAdd s.readyPlayers id }) ∧
        id ∈ (playerReady s id now).2.readyPlayers)) := by
  refine ⟨rfl, mapGet_mapSet_self _ _ _, ?_⟩
  intro hW
  unfold playerReady
  rw [if_neg (by simp [hW])]
  constructor
  · split
    · rfl
    · rfl
  · intro hne
    rw [if_neg (fun hc => hne hc.1)]
    exact ⟨rfl, setAdd_mem _ _⟩

/-- Witness for C5 (amended) at the concrete ghost id of the spec's race
scenario. -/
theorem c5_amended_witness :
    mapGet (updatePlayerInput (initialRoom 0) "ghost"
        { left := true, right := false, up := false, down := false
            }).playerInputs "ghost" =
      some { left := true, right := false, up := false, down := false } ∧
    "ghost" ∈ (playerReady (initialRoom 0) "ghost" 5).2.readyPlayers :=
  ⟨(c5_amended (initialRoom 0) "ghost"
      { left := true, right := false, up := false, down := false } 5).2.1,
   (((c5_amended (initialRoom 0) "ghost"
      { left := true, right := false, up := false, down := false } 5).2.2
      rfl).2 (by simp [setAdd, initialRoom])).2⟩

/-! ## C1: playerReady / match reset -/

/-- A waiting room with the single connected player `p1`. -/
def c1state : GameRoom :=
  { initialRoom 0 with
     players := [("p1",
       { id := "p1", username := "P", x := 100, y := 100,
         color := "#FF6B6B", speed := 200 })] }

/-- C1 counterexample: with the single connected player `p1` and WAITING
phase, `playerReady` called with the unconnected id `ghost` returns `true`
(and resets the match), although the ready set after the add (`[ghost]`)
does not equal the connected-player set (`[p1]`): the source compares only
the *sizes* of the two sets. -/
theorem c1_counterexample :
    (playerReady c1state "ghost" 7).1 = true ∧
    c1state.players.map Prod.fst = ["p1"] ∧
    setAdd c1state.readyPlayers "ghost" = ["ghost"] ∧
    mapGet c1state.players "ghost" = none := by
  simp [c1state, playerReady, resetMatch, initialRoom, setAdd, mapGet]

/-- C1 (amended): outside WAITING, `playerReady` returns `false` with no
state change.  During WAITING it adds the id to the ready set and returns
`true` exactly when the ready set's *size* then equals the non-zero number
of connected players (the ids in the ready set need not be connected
players), in which case it performs the full match reset; otherwise it
returns `false` having only grown the ready set.  With two connected
players (distinct ids) both calling it during WAITING from an empty ready
set, the first call returns `false` and the second returns `true` and
resets the world. -/
theorem c1_playerReady_spec :
    (∀ (s : GameRoom) (pid : String) (now : ℕ),
        s.matchPhase ≠ GamePhase.WAITING → playerReady s pid now = (false, s)) ∧
    (∀ (s : GameRoom) (pid : String) (now : ℕ),
        s.matchPhase = GamePhase.WAITING →
        ((playerReady s pid now).1 = true ↔
          (setAdd s.readyPlayers pid).length = s.players.length ∧
            0 < s.players.length) ∧
        ((setAdd s.readyPlayers pid).length = s.players.length ∧
            0 < s.players.length →
          playerReady s pid now =
            (true, resetMatch
              { s with readyPlayers := setAdd s.readyPlayers pid } now)) ∧
        (¬ ((setAdd s.readyPlayers pid).length = s.players.length ∧
            0 < s.players.length) →
          playerReady s pid now =
            (false, { s with readyPlayers := setAdd s.readyPlayers pid }))) ∧
    (∀ (s : GameRoom) (a b : String) (now now' : ℕ),
        s.matchPhase = GamePhase.WAITING → s.readyPlayers = [] →
        s.players.length = 2 → a ≠ b →
        (playerReady s a now).1 = false ∧
        (playerReady (playerReady s a now).2 b now').1 = true ∧
        ((playerReady (playerReady s a now).2 b now').2.enemies = [] ∧
         (playerReady (playerReady s a now).2 b now').2.buildings = [] ∧
         (playerReady (playerReady s a now).2 b now').2.projectiles = [] ∧
         (playerReady (playerReady s a now).2 b now').2.enemyAttackCooldowns
           = [] ∧
         (playerReady (playerReady s a now).2 b now').2.buildingAttackCooldowns
           = [] ∧
         (playerReady (playerReady s a now).2 b now').2.centralBuilding
           = createCentralBuilding ∧
         (playerReady (playerReady s a now).2 b now').2.readyPlayers = [] ∧
         (playerReady (playerReady s a now).2 b now').2.matchPhase
           = GamePhase.RUNNING ∧
         (playerReady (playerReady s a now).2 b now').2.lastEnemySpawn = now' ∧
         (playerReady (playerReady s a now).2 b now').2.players
           = s.players)) := by
  refine ⟨?_, ?_, ?_⟩
  · intro s pid now h
    unfold playerReady
    rw [if_pos h]
  · intro s pid now hW
    unfold playerReady
    rw [if_neg (by simp [hW])]
    refine ⟨?_, ?_, ?_⟩
    · constructor
      · intro h1
        by_contra hc
        rw [if_neg hc] at h1
        simp at h1
      · intro hc
        rw [if_pos hc]
    · intro hc
      rw [if_pos hc]
    · intro hc
      rw [if_neg hc]
  · intro s a b now now' hW hR hlen hab
    have hsa : setAdd s.readyPlayers a = [a] := by simp [hR, setAdd]
    have hcond1 : ¬ ((setAdd s.readyPlayers a).length = s.players.length ∧
        0 < s.players.length) := by
      rw [hsa, hlen]
      simp
    have h1 : playerReady s a now =
        (false, { s with readyPlayers := setAdd s.readyPlayers a }) := by
      unfold playerReady
      rw [if_neg (by simp [hW]), if_neg hcond1]
    have hba : ¬ b ∈ [a] := by
      simp only [List.mem_singleton]
      exact fun h => hab h.symm
    have hcond2 : (setAdd (setAdd s.readyPlayers a) b).length =
        s.players.length ∧ 0 < s.players.length := by
      rw [hsa, hlen]
      constructor
      · have hba' : ¬ b = a := fun h => hab h.symm
        simp [setAdd, hba']
      · norm_num
    have h2 : playerReady (playerReady s a now).2 b now' =
        (true, resetMatch
          { s with readyPlayers := setAdd (setAdd s.readyPlayers a) b } now') := by
      rw [h1]
      unfold playerReady
      dsimp only
      rw [if_neg (by simp [hW]), if_pos hcond2]
    rw [h2, h1]
    simp [resetMatch]

/-- A waiting room with two connected players. -/
def c1twoPlayers : GameRoom :=
  { initialRoom 0 with
     players :=
       [("p1",
         { id := "p1", username := "P", x := 100, y := 100,
           color := "#FF6B6B", speed := 200 }),
        ("p2",
         { id := "p2", username := "Q", x := 200, y := 200,
           color := "#4ECDC4", speed := 200 })] }

/-- Witness for C1 (amended): the non-WAITING clause at a concrete running
room, and the two-player scenario at a concrete waiting room. -/
theorem c1_playerReady_spec_witness :
    playerReady { c1state with matchPhase := GamePhase.RUNNING } "p1" 3 =
      (false, { c1state with matchPhase := GamePhase.RUNNING }) ∧
    (playerReady c1twoPlayers "p1" 3).1 = false ∧
    (playerReady (playerReady c1twoPlayers "p1" 3).2 "p2" 9).1 = true :=
  ⟨c1_playerReady_spec.1 _ "p1" 3 (by simp [c1state, initialRoom]),
   (c1_playerReady_spec.2.2 c1twoPlayers "p1" "p2" 3 9 rfl rfl
      (by simp [c1twoPlayers, initialRoom]) (by simp)).1,
   (c1_playerReady_spec.2.2 c1twoPlayers "p1" "p2" 3 9 rfl rfl
      (by simp [c1twoPlayers, initialRoom]) (by simp)).2.1⟩

/-! ## C3: the RUNNING→WAITING transition -/

/-- A running room with the central structure already destroyed and an
enemy, a building, and (after the tick) a projectile and cooldown stamps
in play. -/
def c3state : GameRoom :=
  { initialRoom 1000000 with
     matchPhase := GamePhase.RUNNING
     centralBuilding := { createCentralBuilding with hp := 0 }
     enemies := [("e",
       { id := "e", x := 100, y := 100, hp := 200, maxHp := 200,
         speed := 50 })]
     buildings := [("b",
       { id := "b", x := 100, y := 110, type := "turret", hp := 200,
         maxHp := 200, ownerId := "p" })] }

/-- C3 counterexample: a tick on `c3state` performs the RUNNING→WAITING
transition (central HP is 0) yet clears nothing: the enemy stays, the
attacked building stays at 180 HP, the projectile fired this very tick
stays in flight, and both attack-cooldown maps are non-empty; only the
ready set is cleared and the destroyed central structure stays at HP 0. -/
theorem c3_counterexample :
    c3state.matchPhase = GamePhase.RUNNING ∧
    update c3state (1/60) 1000000 spawnIdx0 =
      { c3state with
         matchPhase := GamePhase.WAITING
         buildings := [("b",
           { id := "b", x := 100, y := 110, type := "turret", hp := 180,
             maxHp := 200, ownerId := "p" })]
         projectiles := [("projectile_0",
           { id := "projectile_0", x := 100, y := 105, targetX := 100,
             targetY := 100, speed := 300, sourceId := "b" })]
         projectileIdCounter := 1
         enemyAttackCooldowns := [("e", 1000000)]
         buildingAttackCooldowns := [("b", 1000000)] } ∧
    c3state.enemies ≠ [] ∧
    c3state.centralBuilding.hp = 0 := by
  refine ⟨rfl, ?_, by simp [c3state], rfl⟩
  norm_num [update, updatePlayers, spawnEnemies, updateEnemies, enemyBehavior,
    selectTarget, targetScanStep, buildingTargetOf, centralTargetOf,
    applyAttack, attackCentral, moveEnemy,
    updateBuildingAttacks, buildingAttack, closestEnemyTo, updateProjectiles,
    projectileStep, checkCentralBuildingDestroyed, mapGet, mapSet, dist2,
    c3state, initialRoom, createCentralBuilding, sqrtQ,
    GAME_CONFIG.ENEMY_SPAWN_INTERVAL, GAME_CONFIG.ENEMY_ATTACK_RANGE,
    GAME_CONFIG.ENEMY_ATTACK_COOLDOWN, GAME_CONFIG.ENEMY_DAMAGE,
    GAME_CONFIG.ENEMY_SIZE, GAME_CONFIG.BUILDING_SIZE,
    GAME_CONFIG.BUILDING_DAMAGE, GAME_CONFIG.BUILDING_ATTACK_RANGE,
    GAME_CONFIG.BUILDING_ATTACK_COOLDOWN, GAME_CONFIG.PROJECTILE_SPEED,
    GAME_CONFIG.WORLD_WIDTH, GAME_CONFIG.WORLD_HEIGHT,
    GAME_CONFIG.CENTRAL_BUILDING_HP, GAME_CONFIG.CENTRAL_BUILDING_SIZE]
  rfl

/-- C3 (amended): the RUNNING→WAITING transition
(`checkCentralBuildingDestroyed` with central HP ≤ 0) sets the phase and
clears the ready set and changes nothing else — enemies, buildings,
projectiles and both cooldown trackers persist, and the destroyed central
structure stays in place; with central HP > 0 the pass does nothing. -/
theorem c3_transition_spec (s : GameRoom) :
    (s.centralBuilding.hp ≤ 0 →
      checkCentralBuildingDestroyed s =
        { s with matchPhase := GamePhase.WAITING, readyPlayers := [] }) ∧
    (0 < s.centralBuilding.hp → checkCentralBuildingDestroyed s = s) := by
  unfold checkCentralBuildingDestroyed
  constructor
  · intro h
    rw [if_pos h]
  · intro h
    rw [if_neg (not_le.mpr h)]

/-- Witness for C3 (amended) at the concrete destroyed-central room. -/
theorem c3_transition_spec_witness :
    checkCentralBuildingDestroyed c3state =
      { c3state with matchPhase := GamePhase.WAITING, readyPlayers := [] } :=
  (c3_transition_spec c3state).1 (le_of_eq rfl)

/-! ## C4: building-placement adjacency rule -/

/-- A running room with two mutually adjacent buildings 32 apart. -/
def c4state : GameRoom :=
  { initialRoom 0 with
     matchPhase := GamePhase.RUNNING
     buildings :=
       [("building_0",
         { id := "building_0", x := 100, y := 100, type := "turret",
           hp := 200, maxHp := 200, ownerId := "p" }),
        ("building_1",
         { id := "building_1", x := 132, y := 100, type := "turret",
           hp := 200, maxHp := 200, ownerId := "p" })]
     buildingIdCounter := 2 }

/-- C4 counterexample: placing a third building at `(116, 100)`, adjacent
to exactly the two already-adjacent buildings at `(100, 100)` and
`(132, 100)`, *succeeds* — the source rejects only when the adjacency count
exceeds 2 (`adjacentCount > 2`). -/
theorem c4_counterexample :
    adjacentCount c4state.buildings 116 100 = 2 ∧
    adjacentCount c4state.buildings 132 100 = 1 ∧
    ((placeBuilding c4state 116 100 "turret" "p").1).isSome = true := by
  refine ⟨?_, ?_, ?_⟩ <;>
    norm_num [placeBuilding, adjacentCount, c4state, initialRoom,
      createCentralBuilding, dist2, List.countP_cons,
      GAME_CONFIG.BUILDING_SIZE, GAME_CONFIG.CENTRAL_BUILDING_SIZE,
      GAME_CONFIG.CENTRAL_BUILDING_HP, GAME_CONFIG.WORLD_WIDTH,
      GAME_CONFIG.WORLD_HEIGHT]

/-- C4 (amended): during RUNNING and away from the central structure,
placement is rejected precisely when *more than two* existing buildings are
adjacent (within one building footprint on both axes, the identical
position excluded); a third building adjacent to exactly two
already-adjacent buildings is accepted, as are the first two of such a
cluster. -/
theorem c4_placeBuilding_spec (s : GameRoom) (x y : ℚ)
    (btype ownerId : String) :
    ((placeBuilding s x y btype ownerId).1).isSome = true ↔
      (s.matchPhase = GamePhase.RUNNING ∧
       ¬ dist2 x y s.centralBuilding.x s.centralBuilding.y <
          (s.centralBuilding.size / 2 + GAME_CONFIG.BUILDING_SIZE / 2) *
            (s.centralBuilding.size / 2 + GAME_CONFIG.BUILDING_SIZE / 2) ∧
       adjacentCount s.buildings x y ≤ 2) := by
  unfold placeBuilding
  by_cases hph : s.matchPhase ≠ GamePhase.RUNNING
  · rw [if_pos hph]
    simp only [Option.isSome_none, Bool.false_eq_true, false_iff]
    exact fun hc => hph (by simp [hc.1])
  · rw [if_neg hph]
    by_cases hd : dist2 x y s.centralBuilding.x s.centralBuilding.y <
        (s.centralBuilding.size / 2 + GAME_CONFIG.BUILDING_SIZE / 2) *
          (s.centralBuilding.size / 2 + GAME_CONFIG.BUILDING_SIZE / 2)
    · rw [if_pos hd]
      simp only [Option.isSome_none, Bool.false_eq_true, false_iff]
      exact fun hc => hc.2.1 hd
    · rw [if_neg hd]
      by_cases ha : adjacentCount s.buildings x y > 2
      · rw [if_pos ha]
        simp only [Option.isSome_none, Bool.false_eq_true, false_iff]
        intro hc
        exact absurd hc.2.2 (by omega)
      · rw [if_neg ha]
        simp only [Option.isSome_some, true_iff]
        exact ⟨by simpa using hph, hd, by omega⟩

/-! ## C2: enemy HP and removal timing -/

/-- `applyAttack` never touches the processed-enemy list or the removal
queue. -/
theorem applyAttack_done (st : EnemyPassState) (eid : String) (t : Target)
    (now : ℕ) :
    (applyAttack st eid t now).done = st.done ∧
    (applyAttack st eid t now).enemiesToRemove = st.enemiesToRemove := by
  simp only [applyAttack]
  split
  · split
    · exact ⟨rfl, rfl⟩
    · split
      · split
        · exact ⟨rfl, rfl⟩
        · exact ⟨rfl, rfl⟩
      · exact ⟨rfl, rfl⟩
  · exact ⟨rfl, rfl⟩

/-- `moveEnemy` preserves HP. -/
theorem moveEnemy_hp (enemy : Enemy) (t : Target) (d2t dt : ℚ) :
    (moveEnemy enemy t d2t dt).hp = enemy.hp := rfl

/-- Shape of one `enemyBehavior` step: it appends the processed enemy (with
unchanged HP) to the done list, and appends its id to the removal queue
exactly when that HP is ≤ 0. -/
theorem enemyBehavior_shape (dt : ℚ) (now : ℕ) (st : EnemyPassState)
    (p : String × Enemy) :
    ∃ e' : Enemy, e'.hp = p.2.hp ∧
      (enemyBehavior dt now st p).done = st.done ++ [(p.1, e')] ∧
      (enemyBehavior dt now st p).enemiesToRemove =
        st.enemiesToRemove ++ (if p.2.hp ≤ 0 then [p.1] else []) := by
  unfold enemyBehavior
  cases hsel : selectTarget st.central st.buildings p.2.x p.2.y with
  | none =>
      refine ⟨p.2, rfl, ?_, ?_⟩ <;> simp only [hsel] <;> split <;>
        simp_all
  | some td =>
      obtain ⟨t, d2t⟩ := td
      by_cases hr : d2t ≤ (GAME_CONFIG.ENEMY_ATTACK_RANGE + t.size / 2) *
          (GAME_CONFIG.ENEMY_ATTACK_RANGE + t.size / 2)
      · refine ⟨p.2, rfl, ?_, ?_⟩ <;>
          simp only [hsel, if_pos hr, (applyAttack_done st p.1 t now).1,
            (applyAttack_done st p.1 t now).2] <;> split <;> simp_all
      · refine ⟨moveEnemy p.2 t d2t dt, moveEnemy_hp _ _ _ _, ?_, ?_⟩ <;>
          simp only [hsel, if_neg hr, moveEnemy_hp] <;> split <;> simp_all

/-- The removal queue only grows along the enemy pass. -/
theorem foldl_toRemove_mono (dt : ℚ) (now : ℕ) :
    ∀ (l : AssocMap Enemy) (st : EnemyPassState) (x : String),
      x ∈ st.enemiesToRemove →
      x ∈ (l.foldl (enemyBehavior dt now) st).enemiesToRemove := by
  intro l
  induction l with
  | nil => intro st x hx; simpa using hx
  | cons p tl ih =>
      intro st x hx
      rw [List.foldl_cons]
      apply ih
      obtain ⟨e', _, _, hrem⟩ := enemyBehavior_shape dt now st p
      rw [hrem]
      exact List.mem_append.mpr (Or.inl hx)

/-- Every enemy in the done list with HP ≤ 0 is queued for removal — the
invariant carried along the fold of the enemy pass. -/
theorem foldl_dead_queued (dt : ℚ) (now : ℕ) :
    ∀ (l : AssocMap Enemy) (st : EnemyPassState),
      (∀ q ∈ st.done, q.2.hp ≤ 0 → q.1 ∈ st.enemiesToRemove) →
      ∀ q ∈ (l.foldl (enemyBehavior dt now) st).done, q.2.hp ≤ 0 →
        q.1 ∈ (l.foldl (enemyBehavior dt now) st).enemiesToRemove := by
  intro l
  induction l with
  | nil => intro st h; simpa using h
  | cons p tl ih =>
      intro st h
      rw [List.foldl_cons]
      apply ih
      intro q hq hhp
      obtain ⟨e', he, hdone, hrem⟩ := enemyBehavior_shape dt now st p
      rw [hdone] at hq
      rw [hrem]
      rcases List.mem_append.mp hq with hq1 | hq2
      · exact List.mem_append.mpr (Or.inl (h q hq1 hhp))
      · have hq' : q = (p.1, e') := by simpa using hq2
        subst hq'
        refine List.mem_append.mpr (Or.inr ?_)
        rw [if_pos (by rw [← he]; exact hhp)]
        simp

/-- An enemy entry dead at the start of the pass gets its id queued. -/
theorem foldl_dead_mem (dt : ℚ) (now : ℕ) :
    ∀ (l : AssocMap Enemy) (st : EnemyPassState) (p : String × Enemy),
      p ∈ l → p.2.hp ≤ 0 →
      p.1 ∈ (l.foldl (enemyBehavior dt now) st).enemiesToRemove := by
  intro l
  induction l with
  | nil => intro st p hp; simp at hp
  | cons q tl ih =>
      intro st p hp hhp
      rw [List.foldl_cons]
      rcases List.mem_cons.mp hp with hp1 | hp2
      · subst hp1
        apply foldl_toRemove_mono
        obtain ⟨e', he, _, hrem⟩ := enemyBehavior_shape dt now st p
        rw [hrem, if_pos hhp]
        simp
      · exact ih _ p hp2 hhp

/-- C2 (amended): after the *enemy-behavior pass* of a tick every enemy
still present has HP > 0 (hence ≥ 0), and an enemy whose HP was ≤ 0 when
the pass started (e.g. from projectile damage applied in a prior tick) is
removed by that pass.  Projectile damage, however, is applied by a later
pass of the same tick, so an enemy reduced to HP ≤ 0 by a projectile stays
present — possibly with negative HP — until the next tick's enemy pass
(see the counterexample). -/
theorem c2_enemy_cleanup_spec (s : GameRoom) (dt : ℚ) (now : ℕ) :
    (∀ q ∈ (updateEnemies s dt now).enemies, 0 < q.2.hp) ∧
    (∀ p ∈ s.enemies, p.2.hp ≤ 0 →
      ∀ e' : Enemy, ¬ (p.1, e') ∈ (updateEnemies s dt now).enemies) := by
  constructor
  · intro q hq
    unfold updateEnemies at hq
    rcases List.mem_filter.mp hq with ⟨hqd, hqf⟩
    by_contra hle
    have hdead : q.2.hp ≤ 0 := le_of_not_lt hle
    have hmem := foldl_dead_queued dt now s.enemies _
      (by intro q hq0; simp at hq0) q hqd hdead
    simp only [decide_eq_true_eq] at hqf
    exact hqf hmem
  · intro p hp hhp e' hmem
    unfold updateEnemies at hmem
    rcases List.mem_filter.mp hmem with ⟨_, hqf⟩
    simp only [decide_eq_true_eq] at hqf
    exact hqf (foldl_dead_mem dt now s.enemies _ p hp hhp)

/-- A running room in which a projectile is one tick from impact on a
low-HP enemy: enemy `e` at `(400, 260)` with 5 HP (`5 = 200 - 13·15`, i.e.
thirteen prior projectile hits), projectile `pr` at `(400, 258)` with fixed
target `(400, 260)`. -/
def c2state : GameRoom :=
  { initialRoom 1000000 with
     matchPhase := GamePhase.RUNNING
     enemies := [("e",
       { id := "e", x := 400, y := 260, hp := 5, maxHp := 200, speed := 50 })]
     projectiles := [("pr",
       { id := "pr", x := 400, y := 258, targetX := 400, targetY := 260,
         speed := 300, sourceId := "b0" })]
     enemyAttackCooldowns := [("e", 1000000)] }

/-- C2 counterexample: the projectile pass of this tick drops enemy `e` to
HP `-10`, yet the enemy is still present in the enemies container when
`update` returns (it is only removed by the *next* tick's enemy pass): the
tick's step does not keep HP ≥ 0 for present enemies. -/
theorem c2_counterexample :
    update c2state (1/60) 1000000 spawnIdx0 =
      { c2state with
         enemies := [("e",
           { id := "e", x := 400, y := 260, hp := -10, maxHp := 200,
             speed := 50 })]
         projectiles := [] } ∧
    (mapGet (update c2state (1/60) 1000000 spawnIdx0).enemies "e").map
        Enemy.hp = some (-10) := by
  have h : update c2state (1/60) 1000000 spawnIdx0 =
      { c2state with
         enemies := [("e",
           { id := "e", x := 400, y := 260, hp := -10, maxHp := 200,
             speed := 50 })]
         projectiles := [] } := by
    norm_num [update, updatePlayers, spawnEnemies, updateEnemies,
      enemyBehavior, selectTarget, targetScanStep, buildingTargetOf,
      centralTargetOf, applyAttack, attackCentral,
      moveEnemy, updateBuildingAttacks, buildingAttack, closestEnemyTo,
      updateProjectiles, projectileStep, checkCentralBuildingDestroyed,
      mapGet, mapSet, dist2, c2state, initialRoom, createCentralBuilding,
      sqrtQ, GAME_CONFIG.ENEMY_SPAWN_INTERVAL, GAME_CONFIG.ENEMY_ATTACK_RANGE,
      GAME_CONFIG.ENEMY_ATTACK_COOLDOWN, GAME_CONFIG.ENEMY_DAMAGE,
      GAME_CONFIG.ENEMY_SIZE, GAME_CONFIG.BUILDING_SIZE,
      GAME_CONFIG.BUILDING_DAMAGE, GAME_CONFIG.BUILDING_ATTACK_RANGE,
      GAME_CONFIG.BUILDING_ATTACK_COOLDOWN, GAME_CONFIG.PROJECTILE_SPEED,
      GAME_CONFIG.WORLD_WIDTH, GAME_CONFIG.WORLD_HEIGHT,
      GAME_CONFIG.CENTRAL_BUILDING_HP, GAME_CONFIG.CENTRAL_BUILDING_SIZE]
  refine ⟨h, ?_⟩
  rw [h]
  simp [mapGet]

/-- An enemy entry already at 0 HP and a room holding only it. -/
def c2dead : Enemy :=
  { id := "d", x := 100, y := 100, hp := 0, maxHp := 200, speed := 50 }

def c2deadRoom : GameRoom :=
  { initialRoom 0 with
     matchPhase := GamePhase.RUNNING
     enemies := [("d", c2dead)] }

/-- Witness for C2 (amended): a room with an already-dead enemy entry; the
enemy pass removes it. -/
theorem c2_enemy_cleanup_spec_witness :
    ¬ ("d", c2dead) ∈ (updateEnemies c2deadRoom (1/60) 2000).enemies :=
  (c2_enemy_cleanup_spec c2deadRoom (1/60) 2000).2
    ("d", c2dead) (by simp [c2deadRoom]) (by norm_num [c2dead]) c2dead

/-! ## C6: nearest-target selection -/

/-- One target-scan step always yields a candidate. -/
theorem targetScanStep_isSome (ex ey : ℚ) (acc : Option (Target × ℚ))
    (p : String × Building) : (targetScanStep ex ey acc p).isSome = true := by
  cases acc with
  | none => rfl
  | some td =>
      obtain ⟨t, cd⟩ := td
      dsimp only [targetScanStep]
      split <;> rfl

/-- The target scan yields a candidate whenever one was already present or
any building exists. -/
theorem targetScan_isSome (ex ey : ℚ) :
    ∀ (l : AssocMap Building) (acc : Option (Target × ℚ)),
      acc.isSome = true ∨ l ≠ [] →
      (l.foldl (targetScanStep ex ey) acc).isSome = true := by
  intro l
  induction l with
  | nil =>
      intro acc h
      rcases h with h | h
      · simpa using h
      · exact absurd rfl h
  | cons p tl ih =>
      intro acc _
      rw [List.foldl_cons]
      exact ih _ (Or.inl (targetScanStep_isSome ex ey acc p))

/-- The scan's result is at least as close as the starting candidate and as
every scanned building — the source switches only on strictly smaller
distance, so the final candidate minimises the (squared) distance. -/
theorem targetScan_min (ex ey : ℚ) :
    ∀ (l : AssocMap Building) (acc : Option (Target × ℚ)) (t : Target) (d : ℚ),
      l.foldl (targetScanStep ex ey) acc = some (t, d) →
      (∀ t0 d0, acc = some (t0, d0) → d ≤ d0) ∧
      (∀ p ∈ l, d ≤ dist2 p.2.x p.2.y ex ey) := by
  intro l
  induction l with
  | nil =>
      intro acc t d h
      simp only [List.foldl_nil] at h
      subst h
      refine ⟨?_, by simp⟩
      intro t0 d0 h0
      injection h0 with h1
      cases h1
      exact le_refl _
  | cons p tl ih =>
      intro acc t d h
      rw [List.foldl_cons] at h
      have H := ih (targetScanStep ex ey acc p) t d h
      constructor
      · intro t0 d0 h0
        subst h0
        by_cases hlt : dist2 p.2.x p.2.y ex ey < d0
        · have hstep : targetScanStep ex ey (some (t0, d0)) p =
              some (buildingTargetOf p, dist2 p.2.x p.2.y ex ey) := by
            dsimp only [targetScanStep]
            rw [if_pos hlt]
          exact le_trans (H.1 _ _ hstep) (le_of_lt hlt)
        · have hstep : targetScanStep ex ey (some (t0, d0)) p =
              some (t0, d0) := by
            dsimp only [targetScanStep]
            rw [if_neg hlt]
          exact H.1 t0 d0 hstep
      · intro q hq
        rcases List.mem_cons.mp hq with rfl | hq2
        · cases acc with
          | none => exact H.1 _ _ rfl
          | some td =>
              obtain ⟨t0, d0⟩ := td
              by_cases hlt : dist2 q.2.x q.2.y ex ey < d0
              · exact H.1 _ _ (by dsimp only [targetScanStep]; rw [if_pos hlt])
              · exact le_trans
                  (H.1 t0 d0 (by dsimp only [targetScanStep]; rw [if_neg hlt]))
                  (not_lt.mp hlt)
        · exact H.2 q hq2

/-- When no building is strictly closer than the starting candidate, the
scan keeps that candidate — an exact tie does not switch. -/
theorem targetScan_keep (ex ey : ℚ) :
    ∀ (l : AssocMap Building) (t0 : Target) (d0 : ℚ),
      (∀ p ∈ l, ¬ dist2 p.2.x p.2.y ex ey < d0) →
      l.foldl (targetScanStep ex ey) (some (t0, d0)) = some (t0, d0) := by
  intro l
  induction l with
  | nil => intro t0 d0 _; rfl
  | cons p tl ih =>
      intro t0 d0 h
      rw [List.foldl_cons]
      have hstep : targetScanStep ex ey (some (t0, d0)) p = some (t0, d0) := by
        dsimp only [targetScanStep]
        rw [if_neg (h p (List.mem_cons_self p tl))]
      rw [hstep]
      exact ih t0 d0 (fun q hq => h q (List.mem_cons_of_mem p hq))

/-- Once the candidate is not the central structure it never becomes it:
every switch is to a building. -/
theorem targetScan_noncentral (ex ey : ℚ) :
    ∀ (l : AssocMap Building) (acc : Option (Target × ℚ)),
      (∀ t1 d1, acc = some (t1, d1) → t1.isCentral = false) →
      ∀ t d, l.foldl (targetScanStep ex ey) acc = some (t, d) →
        t.isCentral = false := by
  intro l
  induction l with
  | nil =>
      intro acc h t d hf
      simp only [List.foldl_nil] at hf
      exact h t d hf
  | cons p tl ih =>
      intro acc h t d hf
      rw [List.foldl_cons] at hf
      refine ih _ ?_ t d hf
      intro t1 d1 h1
      cases acc with
      | none =>
          dsimp only [targetScanStep] at h1
          injection h1 with h2
          rw [Prod.mk.injEq] at h2
          rw [← h2.1]
          rfl
      | some td =>
          obtain ⟨t0, d0⟩ := td
          dsimp only [targetScanStep] at h1
          split at h1
          · injection h1 with h2
            rw [Prod.mk.injEq] at h2
            rw [← h2.1]
            rfl
          · injection h1 with h2
            rw [Prod.mk.injEq] at h2
            rw [← h2.1]
            exact h t0 d0 rfl

/-- If some building is strictly closer than the starting candidate, the
scan's result is a building. -/
theorem targetScan_switch (ex ey : ℚ) :
    ∀ (l : AssocMap Building) (t0 : Target) (d0 : ℚ),
      (∃ p ∈ l, dist2 p.2.x p.2.y ex ey < d0) →
      ∀ t d, l.foldl (targetScanStep ex ey) (some (t0, d0)) = some (t, d) →
        t.isCentral = false := by
  intro l
  induction l with
  | nil =>
      intro t0 d0 h
      obtain ⟨p, hp, _⟩ := h
      simp at hp
  | cons p tl ih =>
      intro t0 d0 h t d hf
      rw [List.foldl_cons] at hf
      by_cases hlt : dist2 p.2.x p.2.y ex ey < d0
      · have hstep : targetScanStep ex ey (some (t0, d0)) p =
            some (buildingTargetOf p, dist2 p.2.x p.2.y ex ey) := by
          dsimp only [targetScanStep]
          rw [if_pos hlt]
        rw [hstep] at hf
        refine targetScan_noncentral ex ey tl _ ?_ t d hf
        intro t1 d1 h1
        injection h1 with h2
        rw [Prod.mk.injEq] at h2
        rw [← h2.1]
        rfl
      · have hstep : targetScanStep ex ey (some (t0, d0)) p =
            some (t0, d0) := by
          dsimp only [targetScanStep]
          rw [if_neg hlt]
        rw [hstep] at hf
        obtain ⟨q, hq, hqlt⟩ := h
        rcases List.mem_cons.mp hq with rfl | hq2
        · exact absurd hqlt hlt
        · exact ih t0 d0 ⟨q, hq2, hqlt⟩ t d hf

/-- With a dead central structure and no buildings, the whole enemy pass
touches nothing: the central structure, building map and cooldown map come
through unchanged and every processed enemy record is one of the inputs. -/
theorem foldl_notarget (dt : ℚ) (now : ℕ) :
    ∀ (l : AssocMap Enemy) (st : EnemyPassState),
      ¬ 0 < st.central.hp → st.buildings = [] →
      ((l.foldl (enemyBehavior dt now) st).central = st.central ∧
       (l.foldl (enemyBehavior dt now) st).buildings = [] ∧
       (l.foldl (enemyBehavior dt now) st).cooldowns = st.cooldowns ∧
       (∀ q ∈ (l.foldl (enemyBehavior dt now) st).done,
         q ∈ st.done ∨ q ∈ l)) := by
  intro l
  induction l with
  | nil =>
      intro st _ hb
      exact ⟨rfl, hb, rfl, fun q hq => Or.inl hq⟩
  | cons p tl ih =>
      intro st h hb
      rw [List.foldl_cons]
      have hsel : selectTarget st.central st.buildings p.2.x p.2.y = none := by
        unfold selectTarget
        rw [hb]
        simp only [List.foldl_nil]
        rw [if_neg h]
      have hstep0 : (enemyBehavior dt now st p).central = st.central ∧
          (enemyBehavior dt now st p).buildings = st.buildings ∧
          (enemyBehavior dt now st p).cooldowns = st.cooldowns ∧
          (enemyBehavior dt now st p).done = st.done ++ [(p.1, p.2)] := by
        simp only [enemyBehavior, hsel]
        split <;> exact ⟨rfl, rfl, rfl, rfl⟩
      obtain ⟨hc, hbdg, hcd, hdone⟩ := hstep0
      have ihres := ih (enemyBehavior dt now st p)
        (by rw [hc]; exact h) (by rw [hbdg]; exact hb)
      refine ⟨?_, ihres.2.1, ?_, ?_⟩
      · rw [ihres.1, hc]
      · rw [ihres.2.2.1, hcd]
      · intro q hq
        rcases ihres.2.2.2 q hq with hq1 | hq2
        · rw [hdone] at hq1
          rcases List.mem_append.mp hq1 with h1 | h2
          · exact Or.inl h1
          · right
            have : q = (p.1, p.2) := by simpa using h2
            rw [this]
            simp
        · exact Or.inr (List.mem_cons_of_mem p hq2)

/-- C6: in the enemy pass the selected target minimises Euclidean distance
(embedded on squares) over the candidates — the central structure (only
when its HP is positive) and all live buildings; an exact distance tie
keeps the central structure, a building wins only when strictly closer;
with a dead central structure the nearest building is selected; and with a
dead central structure and no buildings there is no target, so the pass
neither moves any enemy, nor attacks, nor stamps any cooldown. -/
theorem c6_targeting_spec (s : GameRoom) (dt : ℚ) (now : ℕ) (ex ey : ℚ) :
    (0 < s.centralBuilding.hp →
      ∃ t d, selectTarget s.centralBuilding s.buildings ex ey = some (t, d) ∧
        d ≤ dist2 s.centralBuilding.x s.centralBuilding.y ex ey ∧
        (∀ p ∈ s.buildings, d ≤ dist2 p.2.x p.2.y ex ey) ∧
        (t.isCentral = true ↔
          ∀ p ∈ s.buildings, ¬ dist2 p.2.x p.2.y ex ey <
            dist2 s.centralBuilding.x s.centralBuilding.y ex ey)) ∧
    (¬ 0 < s.centralBuilding.hp → s.buildings ≠ [] →
      ∃ t d, selectTarget s.centralBuilding s.buildings ex ey = some (t, d) ∧
        t.isCentral = false ∧
        (∀ p ∈ s.buildings, d ≤ dist2 p.2.x p.2.y ex ey)) ∧
    (s.centralBuilding.hp = 0 → s.buildings = [] →
      selectTarget s.centralBuilding s.buildings ex ey = none ∧
      (updateEnemies s dt now).centralBuilding = s.centralBuilding ∧
      (updateEnemies s dt now).buildings = [] ∧
      (∀ q ∈ (updateEnemies s dt now).enemies, q ∈ s.enemies) ∧
      (∀ c ∈ (updateEnemies s dt now).enemyAttackCooldowns,
        c ∈ s.enemyAttackCooldowns)) := by
  refine ⟨?_, ?_, ?_⟩
  · intro hpos
    have hstart : selectTarget s.centralBuilding s.buildings ex ey =
        s.buildings.foldl (targetScanStep ex ey)
          (some (centralTargetOf s.centralBuilding,
            dist2 s.centralBuilding.x s.centralBuilding.y ex ey)) := by
      unfold selectTarget
      rw [if_pos hpos]
    have hsome : (selectTarget s.centralBuilding s.buildings ex ey).isSome
        = true := by
      rw [hstart]
      exact targetScan_isSome ex ey s.buildings _ (Or.inl rfl)
    obtain ⟨⟨t, d⟩, hf⟩ := Option.isSome_iff_exists.mp hsome
    have hf' := hstart ▸ hf
    have H := targetScan_min ex ey s.buildings _ t d hf'
    refine ⟨t, d, hf, H.1 _ _ rfl, H.2, ?_, ?_⟩
    · intro ht
      by_contra hex
      push_neg at hex
      obtain ⟨p, hp, hlt⟩ := hex
      have := targetScan_switch ex ey s.buildings _ _ ⟨p, hp, hlt⟩ t d hf'
      rw [ht] at this
      exact Bool.true_eq_false.mp this
    · intro hall
      have hkeep := targetScan_keep ex ey s.buildings
        (centralTargetOf s.centralBuilding)
        (dist2 s.centralBuilding.x s.centralBuilding.y ex ey) hall
      rw [hkeep] at hf'
      injection hf' with h2
      rw [Prod.mk.injEq] at h2
      rw [← h2.1]
      rfl
  · intro hneg hne
    have hstart : selectTarget s.centralBuilding s.buildings ex ey =
        s.buildings.foldl (targetScanStep ex ey) none := by
      unfold selectTarget
      rw [if_neg hneg]
    have hsome : (selectTarget s.centralBuilding s.buildings ex ey).isSome
        = true := by
      rw [hstart]
      exact targetScan_isSome ex ey s.buildings none (Or.inr hne)
    obtain ⟨⟨t, d⟩, hf⟩ := Option.isSome_iff_exists.mp hsome
    have hf' := hstart ▸ hf
    refine ⟨t, d, hf, ?_, (targetScan_min ex ey s.buildings none t d hf').2⟩
    exact targetScan_noncentral ex ey s.buildings none
      (fun t1 d1 h1 => Option.noConfusion h1) t d hf'
  · intro h0 hb
    have hneg : ¬ 0 < s.centralBuilding.hp := by
      rw [h0]
      exact lt_irrefl 0
    have hsel : selectTarget s.centralBuilding s.buildings ex ey = none := by
      unfold selectTarget
      rw [hb]
      simp only [List.foldl_nil]
      rw [if_neg hneg]
    have F := foldl_notarget dt now s.enemies
      { central := s.centralBuilding, buildings := s.buildings,
        cooldowns := s.enemyAttackCooldowns, done := [],
        enemiesToRemove := [], buildingsToRemove := [] } hneg hb
    refine ⟨hsel, F.1, ?_, ?_, ?_⟩
    · show (List.foldl (enemyBehavior dt now) _ _).buildings.filter _ = []
      rw [F.2.1]
      rfl
    · intro q hq
      have hq1 := List.mem_of_mem_filter hq
      rcases F.2.2.2 q hq1 with h1 | h2
      · simp at h1
      · exact h2
    · intro c hc
      have hc1 := List.mem_of_mem_filter hc
      rw [F.2.2.1] at hc1
      exact hc1

/-- A room whose single building is at exactly the same distance from the
probe point `(400, 260)` as the central structure (both 40 away). -/
def c6room : GameRoom :=
  { initialRoom 0 with
     buildings := [("b0",
       { id := "b0", x := 400, y := 220, type := "turret", hp := 200,
         maxHp := 200, ownerId := "p" })] }

/-- Witness for C6 at the concrete tie scenario. -/
theorem c6_targeting_spec_witness :
    ∃ t d, selectTarget c6room.centralBuilding c6room.buildings 400 260 =
        some (t, d) ∧
      d ≤ dist2 c6room.centralBuilding.x c6room.centralBuilding.y 400 260 ∧
      (∀ p ∈ c6room.buildings, d ≤ dist2 p.2.x p.2.y 400 260) ∧
      (t.isCentral = true ↔
        ∀ p ∈ c6room.buildings, ¬ dist2 p.2.x p.2.y 400 260 <
          dist2 c6room.centralBuilding.x c6room.centralBuilding.y 400 260) :=
  (c6_targeting_spec c6room (1/60) 0 400 260).1
    (by norm_num [c6room, initialRoom, createCentralBuilding,
      GAME_CONFIG.CENTRAL_BUILDING_HP])

/-! ## C7: player positions stay in bounds -/

theorem players_spawnEnemies (s : GameRoom) (now : ℕ)
    (idx : Fin GAME_CONFIG.SPAWN_POSITIONS.length) :
    (spawnEnemies s now idx).players = s.players := by
  unfold spawnEnemies
  split <;> rfl

theorem players_updateEnemies (s : GameRoom) (dt : ℚ) (now : ℕ) :
    (updateEnemies s dt now).players = s.players := rfl

theorem players_updateBuildingAttacks (s : GameRoom) (dt : ℚ) (now : ℕ) :
    (updateBuildingAttacks s dt now).players = s.players := rfl

theorem players_updateProjectiles (s : GameRoom) (dt : ℚ) :
    (updateProjectiles s dt).players = s.players := rfl

theorem players_checkCentral (s : GameRoom) :
    (checkCentralBuildingDestroyed s).players = s.players := by
  unfold checkCentralBuildingDestroyed
  split <;> rfl

/-- The players produced by a tick are exactly those of the movement pass:
no later pass touches the player container. -/
theorem players_update (s : GameRoom) (dt : ℚ) (now : ℕ)
    (idx : Fin GAME_CONFIG.SPAWN_POSITIONS.length) :
    (update s dt now idx).players = (updatePlayers s dt).players := by
  unfold update
  dsimp only
  split
  · rw [players_checkCentral, players_updateProjectiles,
      players_updateBuildingAttacks, players_updateEnemies,
      players_spawnEnemies]
  · rfl

/-- The movement body ends in a clamp to
`[PLAYER_SIZE/2, dimension - PLAYER_SIZE/2]` on each axis, so its result is
always inside `[8, 792] × [8, 592]` whatever the inputs. -/
theorem movePlayer_bounds (p : Player) (input : PlayerInput) (dt : ℚ) :
    8 ≤ (movePlayer p input dt).x ∧ (movePlayer p input dt).x ≤ 792 ∧
    8 ≤ (movePlayer p input dt).y ∧ (movePlayer p input dt).y ≤ 592 := by
  have h8 : GAME_CONFIG.PLAYER_SIZE / 2 = 8 := by
    norm_num [GAME_CONFIG.PLAYER_SIZE]
  have hw : GAME_CONFIG.WORLD_WIDTH - GAME_CONFIG.PLAYER_SIZE / 2 = 792 := by
    norm_num [GAME_CONFIG.PLAYER_SIZE, GAME_CONFIG.WORLD_WIDTH]
  have hh : GAME_CONFIG.WORLD_HEIGHT - GAME_CONFIG.PLAYER_SIZE / 2 = 592 := by
    norm_num [GAME_CONFIG.PLAYER_SIZE, GAME_CONFIG.WORLD_HEIGHT]
  unfold movePlayer
  dsimp only
  rw [hw, hh, h8]
  exact ⟨le_max_left _ _, max_le (by norm_num) (min_le_left _ _),
    le_max_left _ _, max_le (by norm_num) (min_le_left _ _)⟩

/-- C7: whenever every connected player has a stored input (which every
command maintains: `addPlayer` stores one and only `removePlayer` deletes
one), every player's position after a tick lies in
`[8, 792] × [8, 592]` — `[half_footprint, dimension - half_footprint]` with
the configured sizes — and a player just created by `addPlayer` (random
draws in `[0,1)`) starts inside `[80, 720] × [80, 520]`, hence in
bounds. -/
theorem c7_position_bounds (s : GameRoom) (dt : ℚ) (now : ℕ)
    (idx : Fin GAME_CONFIG.SPAWN_POSITIONS.length)
    (hin : ∀ q ∈ s.players, (mapGet s.playerInputs q.1).isSome = true) :
    (∀ q ∈ (update s dt now idx).players,
        8 ≤ q.2.x ∧ q.2.x ≤ 792 ∧ 8 ≤ q.2.y ∧ q.2.y ≤ 592) ∧
    (∀ (s' : GameRoom) (id username : String) (rx ry : ℚ),
        0 ≤ rx → rx < 1 → 0 ≤ ry → ry < 1 →
        8 ≤ (addPlayer s' id username rx ry).1.x ∧
        (addPlayer s' id username rx ry).1.x ≤ 792 ∧
        8 ≤ (addPlayer s' id username rx ry).1.y ∧
        (addPlayer s' id username rx ry).1.y ≤ 592) := by
  constructor
  · intro q hq
    rw [players_update] at hq
    unfold updatePlayers at hq
    dsimp only at hq
    obtain ⟨p, hp, hpq⟩ := List.mem_map.mp hq
    obtain ⟨input, hinput⟩ :=
      Option.isSome_iff_exists.mp (hin p hp)
    rw [hinput] at hpq
    dsimp only at hpq
    rw [← hpq]
    exact movePlayer_bounds p.2 input dt
  · intro s' id username rx ry hrx0 hrx1 hry0 hry1
    have hx : (addPlayer s' id username rx ry).1.x = 80 + rx * 640 := by
      unfold addPlayer
      dsimp only
      norm_num [GAME_CONFIG.WORLD_WIDTH]
    have hy : (addPlayer s' id username rx ry).1.y = 80 + ry * 440 := by
      unfold addPlayer
      dsimp only
      norm_num [GAME_CONFIG.WORLD_HEIGHT]
    rw [hx, hy]
    have hx0 : 0 ≤ rx * 640 := mul_nonneg hrx0 (by norm_num)
    have hx1 : rx * 640 < 640 := by nlinarith
    have hy0 : 0 ≤ ry * 440 := mul_nonneg hry0 (by norm_num)
    have hy1 : ry * 440 < 440 := by nlinarith
    refine ⟨by linarith, by linarith, by linarith, by linarith⟩

/-- Witness for C7 at a freshly created player with concrete random
draws. -/
theorem c7_position_bounds_witness :
    8 ≤ (addPlayer (initialRoom 0) "a" "A" (1/2) (1/3)).1.x ∧
    (addPlayer (initialRoom 0) "a" "A" (1/2) (1/3)).1.x ≤ 792 ∧
    8 ≤ (addPlayer (initialRoom 0) "a" "A" (1/2) (1/3)).1.y ∧
    (addPlayer (initialRoom 0) "a" "A" (1/2) (1/3)).1.y ≤ 592 :=
  (c7_position_bounds (initialRoom 0) 0 0 spawnIdx0
      (by simp [initialRoom])).2
    (initialRoom 0) "a" "A" (1/2) (1/3)
    (by norm_num) (by norm_num) (by norm_num) (by norm_num)

/-! ## C8: central-structure damage arithmetic -/

/-- An `attackCentral` application never leaves negative HP. -/
theorem attackCentral_nonneg (cb : CentralBuilding) :
    0 ≤ (attackCentral cb).hp := by
  unfold attackCentral
  dsimp only
  split
  · exact le_refl 0
  · linarith [not_lt.mp (by assumption :
      ¬ cb.hp - GAME_CONFIG.ENEMY_DAMAGE < 0)]

/-- `applyAttack` either keeps the central building or applies
`attackCentral` to it. -/
theorem applyAttack_central (st : EnemyPassState) (eid : String) (t : Target)
    (now : ℕ) :
    (applyAttack st eid t now).central = st.central ∨
    (applyAttack st eid t now).central = attackCentral st.central := by
  simp only [applyAttack]
  split
  · split
    · exact Or.inr rfl
    · split
      · split
        · exact Or.inl rfl
        · exact Or.inl rfl
      · exact Or.inl rfl
  · exact Or.inl rfl

/-- One enemy step keeps the central HP non-negative. -/
theorem enemyBehavior_central_nonneg (dt : ℚ) (now : ℕ)
    (st : EnemyPassState) (p : String × Enemy)
    (h : 0 ≤ st.central.hp) :
    0 ≤ (enemyBehavior dt now st p).central.hp := by
  unfold enemyBehavior
  dsimp only
  cases hsel : selectTarget st.central st.buildings p.2.x p.2.y with
  | none => split <;> exact h
  | some td =>
      obtain ⟨t, d2t⟩ := td
      dsimp only
      by_cases hr : d2t ≤ (GAME_CONFIG.ENEMY_ATTACK_RANGE + t.size / 2) *
          (GAME_CONFIG.ENEMY_ATTACK_RANGE + t.size / 2)
      · rw [if_pos hr]
        have hca := applyAttack_central st p.1 t now
        split <;>
          rcases hca with hc | hc <;> rw [hc] <;>
            first
              | exact h
              | exact attackCentral_nonneg st.central
      · rw [if_neg hr]
        split <;> exact h

/-- The whole enemy pass keeps the central HP non-negative — the single
place it is damaged clamps at zero. -/
theorem foldl_central_nonneg (dt : ℚ) (now : ℕ) :
    ∀ (l : AssocMap Enemy) (st : EnemyPassState), 0 ≤ st.central.hp →
      0 ≤ (l.foldl (enemyBehavior dt now) st).central.hp := by
  intro l
  induction l with
  | nil => intro st h; exact h
  | cons p tl ih =>
      intro st h
      rw [List.foldl_cons]
      exact ih _ (enemyBehavior_central_nonneg dt now st p h)

theorem updateEnemies_central_nonneg (s : GameRoom) (dt : ℚ) (now : ℕ)
    (h : 0 ≤ s.centralBuilding.hp) :
    0 ≤ (updateEnemies s dt now).centralBuilding.hp :=
  foldl_central_nonneg dt now s.enemies _ h

/-- The enemy used throughout the claim's scenario: parked 40 away from the
central structure, inside attack range `20 + 64/2 = 52`. -/
def c8enemy : Enemy :=
  { id := "e", x := 400, y := 260, hp := 200, maxHp := 200, speed := 50 }

/-- The family of rooms the scenario moves through: central HP `h`,
cooldown map `cds`, the single enemy `e` in range. -/
def attackState (h : ℚ) (cds : AssocMap ℕ) : GameRoom :=
  { initialRoom 0 with
     matchPhase := GamePhase.RUNNING
     centralBuilding := { createCentralBuilding with hp := h }
     enemies := [("e", c8enemy)]
     enemyAttackCooldowns := cds }

/-- The scenario: one enemy pass per second (`now = 1000·n`), each one a
successful attack while the central structure lives. -/
def runAttacks : ℕ → GameRoom
  | 0 => attackState 1000 []
  | n + 1 => updateEnemies (runAttacks n) (1/60) ((n + 1) * 1000)

theorem attackState_hp (h : ℚ) (cds : AssocMap ℕ) :
    (attackState h cds).centralBuilding.hp = h := rfl

/-- One successful attack: with the cooldown elapsed and the central
structure alive, the enemy pass subtracts exactly `ENEMY_DAMAGE = 20`
(clamped at zero) and stamps the enemy's cooldown to `now`. -/
theorem attackStep (h : ℚ) (cds : AssocMap ℕ) (now : ℕ) (hh : 0 < h)
    (hc : (mapGet cds "e").getD 0 + GAME_CONFIG.ENEMY_ATTACK_COOLDOWN ≤ now) :
    updateEnemies (attackState h cds) (1/60) now =
      attackState (if h - 20 < 0 then 0 else h - 20) (mapSet cds "e" now) := by
  have hc' : (mapGet cds "e").getD 0 + 1000 ≤ now := by
    simpa [GAME_CONFIG.ENEMY_ATTACK_COOLDOWN] using hc
  simp only [updateEnemies, attackState, initialRoom, createCentralBuilding,
    enemyBehavior, selectTarget, targetScanStep, centralTargetOf, applyAttack,
    attackCentral, c8enemy, dist2, List.foldl_cons, List.foldl_nil,
    GAME_CONFIG.ENEMY_ATTACK_RANGE, GAME_CONFIG.ENEMY_ATTACK_COOLDOWN,
    GAME_CONFIG.ENEMY_DAMAGE, GAME_CONFIG.CENTRAL_BUILDING_SIZE,
    GAME_CONFIG.CENTRAL_BUILDING_HP, GAME_CONFIG.WORLD_WIDTH,
    GAME_CONFIG.WORLD_HEIGHT]
  norm_num [hh, hc']

/-- With the central structure dead (HP ≤ 0) and no buildings, the pass is
the identity on the scenario's rooms. -/
theorem deadStep (h : ℚ) (cds : AssocMap ℕ) (now : ℕ) (hh : h ≤ 0) :
    updateEnemies (attackState h cds) (1/60) now = attackState h cds := by
  have hh' : ¬ 0 < h := not_lt.mpr hh
  simp only [updateEnemies, attackState, initialRoom, createCentralBuilding,
    enemyBehavior, selectTarget, targetScanStep, centralTargetOf, applyAttack,
    attackCentral, c8enemy, dist2, List.foldl_cons, List.foldl_nil,
    GAME_CONFIG.ENEMY_ATTACK_RANGE, GAME_CONFIG.ENEMY_ATTACK_COOLDOWN,
    GAME_CONFIG.ENEMY_DAMAGE, GAME_CONFIG.CENTRAL_BUILDING_SIZE,
    GAME_CONFIG.CENTRAL_BUILDING_HP, GAME_CONFIG.WORLD_WIDTH,
    GAME_CONFIG.WORLD_HEIGHT]
  norm_num [hh']

/-- Closed form of the scenario for the first 50 attacks. -/
theorem runAttacks_formula : ∀ n : ℕ, n ≤ 50 →
    runAttacks n = attackState (1000 - 20 * (n : ℚ))
      (if n = 0 then [] else [("e", n * 1000)]) := by
  intro n
  induction n with
  | zero =>
      intro _
      norm_num
      rfl
  | succ n ih =>
      intro hn
      have hn' : n ≤ 49 := by omega
      have hnq : (n : ℚ) ≤ 49 := by exact_mod_cast hn'
      rw [show runAttacks (n + 1) =
        updateEnemies (runAttacks n) (1/60) ((n + 1) * 1000) from rfl]
      rw [ih (by omega)]
      rw [attackStep (1000 - 20 * (n : ℚ)) _ _ (by linarith) (by
        rcases Nat.eq_zero_or_pos n with h0 | hpos
        · subst h0
          simp [mapGet, GAME_CONFIG.ENEMY_ATTACK_COOLDOWN]
        · rw [if_neg (by omega)]
          simp only [mapGet]
          rw [List.find?_cons_of_pos _ (by simp)]
          simp [GAME_CONFIG.ENEMY_ATTACK_COOLDOWN]
          omega)]
      have hhp : ¬ (1000 - 20 * (n : ℚ) - 20 < 0) := by linarith
      rw [if_neg hhp]
      have harith : 1000 - 20 * (n : ℚ) - 20 = 1000 - 20 * ((n : ℚ) + 1) := by
        ring
      rw [harith]
      have hcast : ((n + 1 : ℕ) : ℚ) = (n : ℚ) + 1 := by push_cast; ring
      rw [← hcast]
      congr 1
      rcases Nat.eq_zero_or_pos n with h0 | hpos
      · subst h0
        simp [mapSet]
      · rw [if_neg (by omega), if_neg (by omega)]
        simp [mapSet]

/-- C8: starting from the full 1000 HP, each successful attack of the
scenario subtracts exactly 20: HP is 980 after one attack and exactly 0
after the 50th, and it never goes negative at any point of the run. -/
theorem c8_central_damage :
    (runAttacks 1).centralBuilding.hp = 980 ∧
    (runAttacks 50).centralBuilding.hp = 0 ∧
    (∀ n : ℕ, 0 ≤ (runAttacks n).centralBuilding.hp) ∧
    (∀ n : ℕ, n < 50 →
      (runAttacks (n + 1)).centralBuilding.hp =
        (runAttacks n).centralBuilding.hp - 20) := by
  refine ⟨?_, ?_, ?_, ?_⟩
  · rw [runAttacks_formula 1 (by norm_num), attackState_hp]
    norm_num
  · rw [runAttacks_formula 50 (by norm_num), attackState_hp]
    norm_num
  · intro n
    induction n with
    | zero =>
        show (0 : ℚ) ≤ (attackState 1000 []).centralBuilding.hp
        rw [attackState_hp]
        norm_num
    | succ n ih =>
        exact updateEnemies_central_nonneg (runAttacks n) (1/60)
          ((n + 1) * 1000) ih
  · intro n hn
    rw [runAttacks_formula (n + 1) (by omega), attackState_hp,
      runAttacks_formula n (by omega), attackState_hp]
    push_cast
    ring

/-- Witness for C8: the third attack subtracts exactly 20. -/
theorem c8_central_damage_witness :
    (runAttacks 3).centralBuilding.hp =
      (runAttacks 2).centralBuilding.hp - 20 :=
  c8_central_damage.2.2.2 2 (by norm_num)

end DefenseZone
